import Mathlib

/-!
Shallow embedding of the pipeline-profile override engine in
`src/icd/api/app_shader_optimizer.cpp` (class `vk::ShaderOptimizer`),
together with theorems about its matcher, its override applicators and
its tuning-profile builder.

Modelling conventions:
* `uint32_t`/`uint64_t`/`size_t` scalars become `Nat` (only equality and
  order comparisons occur, so no overflow is observable);
* the fixed per-stage arrays `shaders[ShaderStageCount]` become functions
  `Fin 6 → _` (ShaderStageCount = 6, Vertex = 0 .. Compute = 5);
* a `PipelineProfile`'s `pEntries[0 .. entryCount)` becomes a `List` of
  entries, walked in order exactly as the `for` loops do;
* the nullable pointer `PipelineShaderOptionsPtr::pOptions` becomes an
  `Option`; the source guards every write behind `pOptions != nullptr`;
* the preprocessor configuration modelled is the one with
  `ICD_RUNTIME_APP_PROFILE` enabled (three rule sets) and
  `LLPC_CLIENT_INTERFACE_MAJOR_VERSION >= 45` (so the `nggFasterLaunchRate`
  branch compiled out at lines 177-182 is omitted).
-/

namespace ShaderOpt

/-- Two 64-bit halves of a 128-bit shader code hash (`Pal::ShaderHash`). -/
structure ShaderHash where
  lower : Nat
  upper : Nat
deriving DecidableEq, Repr

/-- Number of shader stages (`ShaderStageCount`). -/
def ShaderStageCount : Nat := 6

/-- Index of `ShaderStage::ShaderStageCompute` (the last of the six stages). -/
def ShaderStageCompute : Fin 6 := 5

/-- The per-stage test-selection bits of `ShaderProfilePattern::match`
as referenced by the source (`stageActive`, `stageInactive`, `codeHash`,
`codeSizeLessThan`). -/
structure ShaderMatch where
  stageActive : Bool
  stageInactive : Bool
  codeHash : Bool
  codeSizeLessThan : Bool
deriving DecidableEq, Repr

/-- Models the source's `shaderPattern.match.u32All != 0` test: some
per-stage test bit is set. -/
def ShaderMatch.anySet (m : ShaderMatch) : Bool :=
  m.stageActive || m.stageInactive || m.codeHash || m.codeSizeLessThan

/-- All-zero `ShaderMatch` (memset-zero state). -/
def ShaderMatch.zero : ShaderMatch :=
  { stageActive := false, stageInactive := false, codeHash := false, codeSizeLessThan := false }

/-- Per-stage pattern: test-selection bits plus the comparison operands
(`ShaderProfilePattern`). The C++ field `match` is a Lean keyword, so it
is named `matchBits` here. -/
structure ShaderProfilePattern where
  matchBits : ShaderMatch
  codeHash : ShaderHash
  codeSizeLessThanValue : Nat
deriving DecidableEq, Repr

/-- All-zero `ShaderProfilePattern` (memset-zero state). -/
def ShaderProfilePattern.zero : ShaderProfilePattern :=
  { matchBits := ShaderMatch.zero
    codeHash := { lower := 0, upper := 0 }
    codeSizeLessThanValue := 0 }

/-- Pipeline-level pattern (`PipelineProfilePattern`): the
`match.always` short-circuit flag plus one `ShaderProfilePattern` per
stage. -/
structure PipelineProfilePattern where
  always : Bool
  shaders : Fin 6 → ShaderProfilePattern

/-- All-zero `PipelineProfilePattern` (memset-zero state). -/
def PipelineProfilePattern.zero : PipelineProfilePattern :=
  { always := false, shaders := fun _ => ShaderProfilePattern.zero }

/-- Per-stage identity of the pipeline being created
(`ShaderOptimizerKey`): code hash and code size; size 0 means the stage
is inactive. -/
structure ShaderOptimizerKey where
  codeHash : ShaderHash
  codeSize : Nat
deriving DecidableEq, Repr

/-- The subject being matched (`PipelineOptimizerKey`): one
`ShaderOptimizerKey` per stage. -/
structure PipelineOptimizerKey where
  shaders : Fin 6 → ShaderOptimizerKey

/-- The stage-active test at lines 446-449: fails when the bit is set
and the key's stage size is 0. -/
def stageActiveTestFails (sp : ShaderProfilePattern) (sk : ShaderOptimizerKey) : Bool :=
  sp.matchBits.stageActive && (sk.codeSize == 0)

/-- The stage-inactive test at lines 452-455: fails when the bit is set
and the key's stage size is nonzero. -/
def stageInactiveTestFails (sp : ShaderProfilePattern) (sk : ShaderOptimizerKey) : Bool :=
  sp.matchBits.stageInactive && (sk.codeSize != 0)

/-- The hash-equality test at lines 458-463: fails when the bit is set
and either 64-bit half differs. -/
def codeHashTestFails (sp : ShaderProfilePattern) (sk : ShaderOptimizerKey) : Bool :=
  sp.matchBits.codeHash &&
    ((sp.codeHash.lower != sk.codeHash.lower) || (sp.codeHash.upper != sk.codeHash.upper))

/-- The size-less-than test at lines 466-470: fails when the bit is set
and the pattern's threshold is greater than or equal to the key's size. -/
def codeSizeLessThanTestFails (sp : ShaderProfilePattern) (sk : ShaderOptimizerKey) : Bool :=
  sp.matchBits.codeSizeLessThan && decide (sp.codeSizeLessThanValue ≥ sk.codeSize)

/-- Disjunction of the four per-stage tests: the loop body at lines
441-471 returns false from the whole match exactly when this is true for
a stage whose `matchBits.anySet` holds. -/
def shaderStageFails (sp : ShaderProfilePattern) (sk : ShaderOptimizerKey) : Bool :=
  stageActiveTestFails sp sk || stageInactiveTestFails sp sk ||
    codeHashTestFails sp sk || codeSizeLessThanTestFails sp sk

/-- Source `ShaderOptimizer::ProfilePatternMatchesPipeline` (lines 428-475):
return true immediately when `pattern.match.always`; otherwise every
stage with some test bit set must pass all its enabled tests. -/
def ProfilePatternMatchesPipeline (pattern : PipelineProfilePattern)
    (pipelineKey : PipelineOptimizerKey) : Bool :=
  if pattern.always then
    true
  else
    (List.finRange 6).all fun stage =>
      let sp := pattern.shaders stage
      if sp.matchBits.anySet then !shaderStageFails sp (pipelineKey.shaders stage) else true

/-- All-inactive pipeline key, used as a concrete instantiation point. -/
def keyZero : PipelineOptimizerKey :=
  { shaders := fun _ => { codeHash := { lower := 0, upper := 0 }, codeSize := 0 } }

/-- Helper: with `always` unset, a stage with an enabled, failing test
makes the whole pattern fail. -/
theorem matches_false_of_stage_fails (pattern : PipelineProfilePattern)
    (pipelineKey : PipelineOptimizerKey) (stage : Fin 6)
    (halways : pattern.always = false)
    (hany : (pattern.shaders stage).matchBits.anySet = true)
    (hfail : shaderStageFails (pattern.shaders stage) (pipelineKey.shaders stage) = true) :
    ProfilePatternMatchesPipeline pattern pipelineKey = false := by
  unfold ProfilePatternMatchesPipeline
  rw [if_neg (by simp [halways])]
  rw [List.all_eq_false]
  refine ⟨stage, List.mem_finRange stage, ?_⟩
  simp [hany, hfail]

/-- Helper: with `always` unset, if every stage with an enabled test has
no failing test, the pattern matches. -/
theorem matches_true_of_all_pass (pattern : PipelineProfilePattern)
    (pipelineKey : PipelineOptimizerKey)
    (hpass : ∀ stage : Fin 6, (pattern.shaders stage).matchBits.anySet = true →
      shaderStageFails (pattern.shaders stage) (pipelineKey.shaders stage) = false) :
    ProfilePatternMatchesPipeline pattern pipelineKey = true := by
  unfold ProfilePatternMatchesPipeline
  split
  · rfl
  · rw [List.all_eq_true]
    intro stage _
    by_cases hany : (pattern.shaders stage).matchBits.anySet = true
    · simp [hany, hpass stage hany]
    · simp [Bool.not_eq_true] at hany
      simp [hany]

/-- C4: a `PipelinePattern` with the `always` flag set matches every
pipeline key; the per-stage tests are never consulted (the result is
true for arbitrary stage patterns and arbitrary keys). -/
theorem always_pattern_matches_every_key (pattern : PipelineProfilePattern)
    (pipelineKey : PipelineOptimizerKey) (halways : pattern.always = true) :
    ProfilePatternMatchesPipeline pattern pipelineKey = true := by
  unfold ProfilePatternMatchesPipeline
  rw [if_pos halways]

/-- C4 witness: the always-flagged zero pattern matches the all-inactive
key. -/
theorem always_pattern_matches_every_key_witness :
    ProfilePatternMatchesPipeline
      { always := true, shaders := fun _ => ShaderProfilePattern.zero } keyZero = true :=
  always_pattern_matches_every_key _ _ rfl

/-- C5: with `always` unset and no stage having any enabled test bit,
the pattern matches every pipeline key (an empty pattern matches
everything). -/
theorem empty_pattern_matches_every_key (pattern : PipelineProfilePattern)
    (pipelineKey : PipelineOptimizerKey)
    (halways : pattern.always = false)
    (hempty : ∀ stage : Fin 6, (pattern.shaders stage).matchBits.anySet = false) :
    ProfilePatternMatchesPipeline pattern pipelineKey = true := by
  refine matches_true_of_all_pass pattern pipelineKey ?_
  intro stage hany
  rw [hempty stage] at hany
  exact absurd hany (by simp)

/-- C5 witness: the all-zero pattern (always unset, no test bits)
matches the all-inactive key. -/
theorem empty_pattern_matches_every_key_witness :
    ProfilePatternMatchesPipeline PipelineProfilePattern.zero keyZero = true :=
  empty_pattern_matches_every_key _ _ rfl (fun _ => rfl)

/-- C2: with the size-less-than test enabled at some stage and `always`
unset, the stage test fails exactly when the pattern's threshold is
greater than or equal to the key's stage size (and then the whole
pattern fails to match); it passes exactly when the threshold is
strictly below the size. -/
theorem size_less_than_test_boundary (pattern : PipelineProfilePattern)
    (pipelineKey : PipelineOptimizerKey) (stage : Fin 6)
    (halways : pattern.always = false)
    (henabled : (pattern.shaders stage).matchBits.codeSizeLessThan = true) :
    (codeSizeLessThanTestFails (pattern.shaders stage) (pipelineKey.shaders stage) = true ↔
      (pattern.shaders stage).codeSizeLessThanValue ≥ (pipelineKey.shaders stage).codeSize) ∧
    ((pattern.shaders stage).codeSizeLessThanValue ≥ (pipelineKey.shaders stage).codeSize →
      ProfilePatternMatchesPipeline pattern pipelineKey = false) := by
  constructor
  · simp [codeSizeLessThanTestFails, henabled]
  · intro hge
    apply matches_false_of_stage_fails pattern pipelineKey stage halways
    · simp [ShaderMatch.anySet, henabled]
    · simp [shaderStageFails, codeSizeLessThanTestFails, henabled, hge]

/-- Concrete pattern for the C2 witness: size-less-than test at the
vertex stage with threshold 4. -/
def c2Pattern : PipelineProfilePattern :=
  { always := false
    shaders := Function.update (fun _ => ShaderProfilePattern.zero) 0
      { matchBits := { ShaderMatch.zero with codeSizeLessThan := true }
        codeHash := { lower := 0, upper := 0 }
        codeSizeLessThanValue := 4 } }

/-- Concrete key for the C2 witness: every stage has code size 4. -/
def c2Key : PipelineOptimizerKey :=
  { shaders := fun _ => { codeHash := { lower := 0, upper := 0 }, codeSize := 4 } }

/-- C2 witness: at threshold 4 against size 4 (the boundary), the stage
test fails and the pattern does not match. -/
theorem size_less_than_test_boundary_witness :
    (codeSizeLessThanTestFails (c2Pattern.shaders 0) (c2Key.shaders 0) = true ↔
      (c2Pattern.shaders 0).codeSizeLessThanValue ≥ (c2Key.shaders 0).codeSize) ∧
    ProfilePatternMatchesPipeline c2Pattern c2Key = false := by
  have h := size_less_than_test_boundary c2Pattern c2Key 0 rfl (by decide)
  exact ⟨h.1, h.2 (by decide)⟩

/-- C6: with the hash-equality test enabled at some stage and `always`
unset, the pattern fails to match whenever the key's hash for that stage
differs from the pattern's hash in either 64-bit half; and it matches
when both halves agree, provided no other enabled test in any stage
fails. -/
theorem code_hash_test_behavior (pattern : PipelineProfilePattern)
    (pipelineKey : PipelineOptimizerKey) (stage : Fin 6)
    (halways : pattern.always = false)
    (henabled : (pattern.shaders stage).matchBits.codeHash = true) :
    (((pattern.shaders stage).codeHash.lower ≠ (pipelineKey.shaders stage).codeHash.lower ∨
      (pattern.shaders stage).codeHash.upper ≠ (pipelineKey.shaders stage).codeHash.upper) →
      ProfilePatternMatchesPipeline pattern pipelineKey = false) ∧
    (((pattern.shaders stage).codeHash.lower = (pipelineKey.shaders stage).codeHash.lower ∧
      (pattern.shaders stage).codeHash.upper = (pipelineKey.shaders stage).codeHash.upper) →
      (∀ s : Fin 6,
        stageActiveTestFails (pattern.shaders s) (pipelineKey.shaders s) = false ∧
        stageInactiveTestFails (pattern.shaders s) (pipelineKey.shaders s) = false ∧
        codeSizeLessThanTestFails (pattern.shaders s) (pipelineKey.shaders s) = false ∧
        (s ≠ stage → codeHashTestFails (pattern.shaders s) (pipelineKey.shaders s) = false)) →
      ProfilePatternMatchesPipeline pattern pipelineKey = true) := by
  constructor
  · intro hdiff
    apply matches_false_of_stage_fails pattern pipelineKey stage halways
    · simp [ShaderMatch.anySet, henabled]
    · rcases hdiff with h | h <;>
        simp [shaderStageFails, codeHashTestFails, henabled, bne_iff_ne, h]
  · intro hagree hothers
    apply matches_true_of_all_pass pattern pipelineKey
    intro s _
    rcases hothers s with ⟨h1, h2, h3, h4⟩
    by_cases hs : s = stage
    · subst hs
      simp [shaderStageFails, h1, h2, h3, codeHashTestFails, hagree.1, hagree.2]
    · simp [shaderStageFails, h1, h2, h3, h4 hs]

/-- Concrete pattern for the C6 witness: hash-equality test at the
fragment stage against the hash (lower = 11, upper = 22). -/
def c6Pattern : PipelineProfilePattern :=
  { always := false
    shaders := Function.update (fun _ => ShaderProfilePattern.zero) 4
      { matchBits := { ShaderMatch.zero with codeHash := true }
        codeHash := { lower := 11, upper := 22 }
        codeSizeLessThanValue := 0 } }

/-- Concrete key for the C6 witness with an agreeing fragment hash. -/
def c6KeyGood : PipelineOptimizerKey :=
  { shaders := Function.update
      (fun _ => { codeHash := { lower := 0, upper := 0 }, codeSize := 0 })
      4 { codeHash := { lower := 11, upper := 22 }, codeSize := 64 } }

/-- Concrete key for the C6 witness whose fragment hash differs in the
upper half. -/
def c6KeyBad : PipelineOptimizerKey :=
  { shaders := Function.update
      (fun _ => { codeHash := { lower := 0, upper := 0 }, codeSize := 0 })
      4 { codeHash := { lower := 11, upper := 99 }, codeSize := 64 } }

/-- C6 witness: the hash-tested pattern rejects a key whose upper hash
half differs and accepts a key whose both halves agree. -/
theorem code_hash_test_behavior_witness :
    ProfilePatternMatchesPipeline c6Pattern c6KeyBad = false ∧
    ProfilePatternMatchesPipeline c6Pattern c6KeyGood = true :=
  ⟨(code_hash_test_behavior c6Pattern c6KeyBad 4 rfl (by decide)).1 (Or.inr (by decide)),
   (code_hash_test_behavior c6Pattern c6KeyGood 4 rfl (by decide)).2 (by decide) (by decide)⟩

/-- The per-field apply bits of `ShaderProfileAction::shaderCreate.apply`
referenced by the source. The `nggFasterLaunchRate` bit only exists when
`LLPC_CLIENT_INTERFACE_MAJOR_VERSION < 45` and is omitted. -/
structure ShaderCreateApply where
  vgprLimit : Bool
  sgprLimit : Bool
  maxThreadGroupsPerComputeUnit : Bool
  debugMode : Bool
  trapPresent : Bool
  allowReZ : Bool
  disableLoopUnrolls : Bool
  fp32DenormalMode : Bool
  waveSize : Bool
  wgpMode : Bool
  waveBreakSize : Bool
  nggDisable : Bool
  nggVertexReuse : Bool
  nggEnableFrustumCulling : Bool
  nggEnableBoxFilterCulling : Bool
  nggEnableSphereCulling : Bool
  nggEnableBackfaceCulling : Bool
  nggEnableSmallPrimFilter : Bool
  ldsSpillLimitDwords : Bool
  userDataSpillThreshold : Bool
  enableSelectiveInline : Bool
  enableSubvector : Bool
deriving DecidableEq, Repr

/-- All-zero `ShaderCreateApply` (memset-zero state). -/
def ShaderCreateApply.zero : ShaderCreateApply :=
  { vgprLimit := false, sgprLimit := false, maxThreadGroupsPerComputeUnit := false
    debugMode := false, trapPresent := false, allowReZ := false
    disableLoopUnrolls := false, fp32DenormalMode := false, waveSize := false
    wgpMode := false, waveBreakSize := false, nggDisable := false
    nggVertexReuse := false, nggEnableFrustumCulling := false
    nggEnableBoxFilterCulling := false, nggEnableSphereCulling := false
    nggEnableBackfaceCulling := false, nggEnableSmallPrimFilter := false
    ldsSpillLimitDwords := false, userDataSpillThreshold := false
    enableSelectiveInline := false, enableSubvector := false }

/-- The value payloads of `ShaderProfileAction::shaderCreate.tuningOptions`
referenced by the source. Enum-typed payloads (`fp32DenormalMode`,
`waveBreakSize`) are carried as raw numeric values, as the source casts
them. -/
structure TuningOptions where
  vgprLimit : Nat
  sgprLimit : Nat
  maxThreadGroupsPerComputeUnit : Nat
  useSiScheduler : Bool
  reconfigWorkgroupLayout : Bool
  enableLoadScalarizer : Bool
  forceLoopUnrollCount : Nat
  disableLicm : Bool
  unrollThreshold : Nat
  fp32DenormalMode : Nat
  waveSize : Nat
  waveBreakSize : Nat
  ldsSpillLimitDwords : Nat
  userDataSpillThreshold : Nat
deriving DecidableEq, Repr

/-- All-zero `TuningOptions` (memset-zero state). -/
def TuningOptions.zero : TuningOptions :=
  { vgprLimit := 0, sgprLimit := 0, maxThreadGroupsPerComputeUnit := 0
    useSiScheduler := false, reconfigWorkgroupLayout := false
    enableLoadScalarizer := false, forceLoopUnrollCount := 0
    disableLicm := false, unrollThreshold := 0, fp32DenormalMode := 0
    waveSize := 0, waveBreakSize := 0, ldsSpillLimitDwords := 0
    userDataSpillThreshold := 0 }

/-- Source `ShaderProfileAction::shaderCreate`: apply bits plus value payloads. -/
structure ShaderCreateAction where
  apply : ShaderCreateApply
  tuningOptions : TuningOptions
deriving DecidableEq, Repr

/-- All-zero `ShaderCreateAction`. -/
def ShaderCreateAction.zero : ShaderCreateAction :=
  { apply := ShaderCreateApply.zero, tuningOptions := TuningOptions.zero }

/-- Apply bits of `ShaderProfileAction::dynamicShaderInfo.apply`
referenced by the source. -/
structure DynamicShaderInfoApply where
  cuEnableMask : Bool
  maxWavesPerCu : Bool
  maxThreadGroupsPerCu : Bool
deriving DecidableEq, Repr

/-- All-zero `DynamicShaderInfoApply`. -/
def DynamicShaderInfoApply.zero : DynamicShaderInfoApply :=
  { cuEnableMask := false, maxWavesPerCu := false, maxThreadGroupsPerCu := false }

/-- Source `ShaderProfileAction::dynamicShaderInfo`: apply bits plus values. -/
structure DynamicShaderInfoAction where
  apply : DynamicShaderInfoApply
  cuEnableMask : Nat
  maxWavesPerCu : Nat
  maxThreadGroupsPerCu : Nat
deriving DecidableEq, Repr

/-- All-zero `DynamicShaderInfoAction`. -/
def DynamicShaderInfoAction.zero : DynamicShaderInfoAction :=
  { apply := DynamicShaderInfoApply.zero, cuEnableMask := 0
    maxWavesPerCu := 0, maxThreadGroupsPerCu := 0 }

/-- One stage's action block (`ShaderProfileAction`). -/
structure ShaderProfileAction where
  shaderCreate : ShaderCreateAction
  dynamicShaderInfo : DynamicShaderInfoAction
deriving DecidableEq, Repr

/-- All-zero `ShaderProfileAction`. -/
def ShaderProfileAction.zero : ShaderProfileAction :=
  { shaderCreate := ShaderCreateAction.zero
    dynamicShaderInfo := DynamicShaderInfoAction.zero }

/-- Values of `Pal::BinningOverride` written by the source. -/
inductive BinningOverride where
  | Default
  | Enable
  | Disable
deriving DecidableEq, Repr

/-- Apply bits of the pipeline-level action
(`profileEntry.action.createInfo.apply`). -/
structure PipelineCreateApply where
  lateAllocVsLimit : Bool
  binningOverride : Bool
deriving DecidableEq, Repr

/-- Pipeline-level (non-per-stage) action block
(`profileEntry.action.createInfo`). -/
structure PipelineCreateAction where
  apply : PipelineCreateApply
  lateAllocVsLimit : Nat
  binningOverride : BinningOverride
deriving DecidableEq, Repr

/-- All-zero `PipelineCreateAction` (`Pal::BinningOverride` value 0 is
`Default`). -/
def PipelineCreateAction.zero : PipelineCreateAction :=
  { apply := { lateAllocVsLimit := false, binningOverride := false }
    lateAllocVsLimit := 0, binningOverride := BinningOverride.Default }

/-- A rule's action: one `ShaderProfileAction` per stage plus the
pipeline-level block. -/
structure PipelineProfileAction where
  shaders : Fin 6 → ShaderProfileAction
  createInfo : PipelineCreateAction

/-- All-zero `PipelineProfileAction`. -/
def PipelineProfileAction.zero : PipelineProfileAction :=
  { shaders := fun _ => ShaderProfileAction.zero
    createInfo := PipelineCreateAction.zero }

/-- One rule (`PipelineProfileEntry`): a pattern paired with an action. -/
structure PipelineProfileEntry where
  pattern : PipelineProfilePattern
  action : PipelineProfileAction

/-- All-zero `PipelineProfileEntry` (memset-zero state of a freshly
allocated entry). -/
def PipelineProfileEntry.zero : PipelineProfileEntry :=
  { pattern := PipelineProfilePattern.zero, action := PipelineProfileAction.zero }

/-- A rule set (`PipelineProfile`): `pEntries[0 .. entryCount)` walked in
array order. The capacity bookkeeping has no observable effect on the
match/apply paths and is not modelled. -/
structure PipelineProfile where
  entries : List PipelineProfileEntry

/-- The compiler-option fields (`Vkgc::PipelineShaderOptions`) written by
`ApplyProfileToShaderCreateInfo`. -/
structure ShaderOptions where
  vgprLimit : Nat
  sgprLimit : Nat
  maxThreadGroupsPerComputeUnit : Nat
  debugMode : Bool
  trapPresent : Bool
  allowReZ : Bool
  disableLoopUnroll : Bool
  useSiScheduler : Bool
  enableLoadScalarizer : Bool
  forceLoopUnrollCount : Nat
  disableLicm : Bool
  unrollThreshold : Nat
  fp32DenormalMode : Nat
  waveSize : Nat
  wgpMode : Bool
  waveBreakSize : Nat
deriving DecidableEq, Repr

/-- The pipeline-option field (`options.pPipelineOptions`) written by
`ApplyProfileToShaderCreateInfo`. -/
structure PipelineOptions where
  reconfigWorkgroupLayout : Bool
deriving DecidableEq, Repr

/-- The NGG-state fields (`options.pNggState`) written by
`ApplyProfileToShaderCreateInfo`. -/
structure NggState where
  enableNgg : Bool
  enableVertexReuse : Bool
  enableFrustumCulling : Bool
  enableBoxFilterCulling : Bool
  enableSphereCulling : Bool
  enableBackfaceCulling : Bool
  enableSmallPrimFilter : Bool
deriving DecidableEq, Repr

/-- The caller-owned target of the shader-stage override path
(`PipelineShaderOptionsPtr`). `pOptions = none` models a null
`pOptions` pointer; the source's single null check at line 91 guards
every write, including the ones through `pPipelineOptions` and
`pNggState`. -/
structure PipelineShaderOptionsPtr where
  pOptions : Option ShaderOptions
  pPipelineOptions : PipelineOptions
  pNggState : NggState
deriving DecidableEq, Repr

/-- The body of the matching branch of
`ApplyProfileToShaderCreateInfo` (lines 89-213): one rule's per-stage
`shaderCreate` action merged onto the target. Each field of the result
is the source's corresponding conditional write: apply-bit-gated fields
(`if (shaderCreate.apply.x) target = value;`) and, at lines 128-151,
six fields gated by a nonzero/true value payload instead of an apply
bit. When `pOptions` is null nothing at all is written. -/
def applyShaderCreateInfoEntry (shaderCreate : ShaderCreateAction)
    (options : PipelineShaderOptionsPtr) : PipelineShaderOptionsPtr :=
  match options.pOptions with
  | none => options
  | some o =>
    { pOptions := some
        { vgprLimit := if shaderCreate.apply.vgprLimit then
            shaderCreate.tuningOptions.vgprLimit else o.vgprLimit
          sgprLimit := if shaderCreate.apply.sgprLimit then
            shaderCreate.tuningOptions.sgprLimit else o.sgprLimit
          maxThreadGroupsPerComputeUnit := if shaderCreate.apply.maxThreadGroupsPerComputeUnit then
            shaderCreate.tuningOptions.maxThreadGroupsPerComputeUnit
            else o.maxThreadGroupsPerComputeUnit
          debugMode := if shaderCreate.apply.debugMode then true else o.debugMode
          trapPresent := if shaderCreate.apply.trapPresent then true else o.trapPresent
          allowReZ := if shaderCreate.apply.allowReZ then true else o.allowReZ
          disableLoopUnroll := if shaderCreate.apply.disableLoopUnrolls then true
            else o.disableLoopUnroll
          useSiScheduler := if shaderCreate.tuningOptions.useSiScheduler then true
            else o.useSiScheduler
          enableLoadScalarizer := if shaderCreate.tuningOptions.enableLoadScalarizer then true
            else o.enableLoadScalarizer
          forceLoopUnrollCount := if shaderCreate.tuningOptions.forceLoopUnrollCount != 0 then
            shaderCreate.tuningOptions.forceLoopUnrollCount else o.forceLoopUnrollCount
          disableLicm := if shaderCreate.tuningOptions.disableLicm then true else o.disableLicm
          unrollThreshold := if shaderCreate.tuningOptions.unrollThreshold != 0 then
            shaderCreate.tuningOptions.unrollThreshold else o.unrollThreshold
          fp32DenormalMode := if shaderCreate.apply.fp32DenormalMode then
            shaderCreate.tuningOptions.fp32DenormalMode else o.fp32DenormalMode
          waveSize := if shaderCreate.apply.waveSize then
            shaderCreate.tuningOptions.waveSize else o.waveSize
          wgpMode := if shaderCreate.apply.wgpMode then true else o.wgpMode
          waveBreakSize := if shaderCreate.apply.waveBreakSize then
            shaderCreate.tuningOptions.waveBreakSize else o.waveBreakSize }
      pPipelineOptions :=
        { reconfigWorkgroupLayout := if shaderCreate.tuningOptions.reconfigWorkgroupLayout then
            true else options.pPipelineOptions.reconfigWorkgroupLayout }
      pNggState :=
        { enableNgg := if shaderCreate.apply.nggDisable then false
            else options.pNggState.enableNgg
          enableVertexReuse := if shaderCreate.apply.nggVertexReuse then true
            else options.pNggState.enableVertexReuse
          enableFrustumCulling := if shaderCreate.apply.nggEnableFrustumCulling then true
            else options.pNggState.enableFrustumCulling
          enableBoxFilterCulling := if shaderCreate.apply.nggEnableBoxFilterCulling then true
            else options.pNggState.enableBoxFilterCulling
          enableSphereCulling := if shaderCreate.apply.nggEnableSphereCulling then true
            else options.pNggState.enableSphereCulling
          enableBackfaceCulling := if shaderCreate.apply.nggEnableBackfaceCulling then true
            else options.pNggState.enableBackfaceCulling
          enableSmallPrimFilter := if shaderCreate.apply.nggEnableSmallPrimFilter then true
            else options.pNggState.enableSmallPrimFilter } }

/-- Source `ShaderOptimizer::ApplyProfileToShaderCreateInfo` (lines 77-217):
walk the rule set in order and merge every matching rule's per-stage
`shaderCreate` action onto the target. -/
def ApplyProfileToShaderCreateInfo (profile : PipelineProfile)
    (pipelineKey : PipelineOptimizerKey) (shaderStage : Fin 6)
    (options : PipelineShaderOptionsPtr) : PipelineShaderOptionsPtr :=
  profile.entries.foldl
    (fun opts profileEntry =>
      if ProfilePatternMatchesPipeline profileEntry.pattern pipelineKey then
        applyShaderCreateInfoEntry (profileEntry.action.shaders shaderStage).shaderCreate opts
      else opts)
    options

/-- The three rule sets owned by one `vk::ShaderOptimizer` instance
(`ICD_RUNTIME_APP_PROFILE` enabled). -/
structure ShaderOptimizer where
  appProfile : PipelineProfile
  tuningProfile : PipelineProfile
  runtimeProfile : PipelineProfile

/-- Source `ShaderOptimizer::OverrideShaderCreateInfo` (lines 220-233): the
application, tuning and runtime profiles applied in that fixed order. -/
def OverrideShaderCreateInfo (so : ShaderOptimizer)
    (pipelineKey : PipelineOptimizerKey) (shaderStage : Fin 6)
    (options : PipelineShaderOptionsPtr) : PipelineShaderOptionsPtr :=
  ApplyProfileToShaderCreateInfo so.runtimeProfile pipelineKey shaderStage
    (ApplyProfileToShaderCreateInfo so.tuningProfile pipelineKey shaderStage
      (ApplyProfileToShaderCreateInfo so.appProfile pipelineKey shaderStage options))

/-- The target of the compute-pipeline override path
(`Pal::DynamicComputeShaderInfo`), carrying the dynamic fields the
claims name. -/
structure DynamicComputeShaderInfo where
  maxWavesPerCu : Nat
  maxThreadGroupsPerCu : Nat
deriving DecidableEq, Repr

/-- Source `ShaderOptimizer::ApplyProfileToDynamicComputeShaderInfo`
(lines 290-294): the source function body is empty, so the target is
returned unchanged. -/
def ApplyProfileToDynamicComputeShaderInfo (action : ShaderProfileAction)
    (computeShaderInfo : DynamicComputeShaderInfo) : DynamicComputeShaderInfo :=
  computeShaderInfo

/-- Source `ShaderOptimizer::ApplyProfileToComputePipelineCreateInfo`
(lines 375-398): for every matching rule, apply the compute stage's
dynamic-shader-info action. -/
def ApplyProfileToComputePipelineCreateInfo (profile : PipelineProfile)
    (pipelineKey : PipelineOptimizerKey)
    (dynamicComputeShaderInfo : DynamicComputeShaderInfo) : DynamicComputeShaderInfo :=
  profile.entries.foldl
    (fun info profileEntry =>
      if ProfilePatternMatchesPipeline profileEntry.pattern pipelineKey then
        ApplyProfileToDynamicComputeShaderInfo
          (profileEntry.action.shaders ShaderStageCompute) info
      else info)
    dynamicComputeShaderInfo

/-- Source `ShaderOptimizer::OverrideComputePipelineCreateInfo` (lines 255-266):
the three profiles applied to the dynamic compute shader info in the
fixed order application, tuning, runtime. -/
def OverrideComputePipelineCreateInfo (so : ShaderOptimizer)
    (pipelineKey : PipelineOptimizerKey)
    (dynamicComputeShaderInfo : DynamicComputeShaderInfo) : DynamicComputeShaderInfo :=
  ApplyProfileToComputePipelineCreateInfo so.runtimeProfile pipelineKey
    (ApplyProfileToComputePipelineCreateInfo so.tuningProfile pipelineKey
      (ApplyProfileToComputePipelineCreateInfo so.appProfile pipelineKey
        dynamicComputeShaderInfo))

/-- Helper: applying one rule set to the dynamic compute shader info is
the identity, because the per-rule action application has an empty body. -/
theorem applyProfileToComputePipelineCreateInfo_id (profile : PipelineProfile)
    (pipelineKey : PipelineOptimizerKey) (info : DynamicComputeShaderInfo) :
    ApplyProfileToComputePipelineCreateInfo profile pipelineKey info = info := by
  unfold ApplyProfileToComputePipelineCreateInfo
  generalize profile.entries = es
  induction es generalizing info with
  | nil => rfl
  | cons e es ih =>
    rw [List.foldl_cons]
    have hstep :
        (if ProfilePatternMatchesPipeline e.pattern pipelineKey then
          ApplyProfileToDynamicComputeShaderInfo (e.action.shaders ShaderStageCompute) info
        else info) = info := by
      unfold ApplyProfileToDynamicComputeShaderInfo
      exact ite_self info
    rw [hstep]
    exact ih info

/-- C3: the compute-pipeline override path never changes any field of the
target `DynamicComputeShaderInfo`, for every profile triple, pipeline key
and initial value: `ApplyProfileToDynamicComputeShaderInfo` has an empty
body, so `OverrideComputePipelineCreateInfo` is the identity on the
target. -/
theorem override_compute_pipeline_noop (so : ShaderOptimizer)
    (pipelineKey : PipelineOptimizerKey) (info : DynamicComputeShaderInfo) :
    OverrideComputePipelineCreateInfo so pipelineKey info = info := by
  unfold OverrideComputePipelineCreateInfo
  rw [applyProfileToComputePipelineCreateInfo_id, applyProfileToComputePipelineCreateInfo_id,
    applyProfileToComputePipelineCreateInfo_id]

/-- Helper: merging one rule's action onto a target whose `pOptions`
handle is null writes nothing. -/
theorem applyEntry_none (shaderCreate : ShaderCreateAction)
    (options : PipelineShaderOptionsPtr) (h : options.pOptions = none) :
    applyShaderCreateInfoEntry shaderCreate options = options := by
  obtain ⟨popt, ppo, png⟩ := options
  cases popt with
  | none => rfl
  | some o => simp at h

/-- C10: with a null compiler-options handle (`pOptions == nullptr`),
`ApplyProfileToShaderCreateInfo` writes nothing — the pipeline options
and NGG state subtargets are also untouched, because the null check
guards the whole merge — and completes normally for every profile, key
and stage. -/
theorem null_options_handle_noop (profile : PipelineProfile)
    (pipelineKey : PipelineOptimizerKey) (shaderStage : Fin 6)
    (pipelineOptions : PipelineOptions) (nggState : NggState) :
    ApplyProfileToShaderCreateInfo profile pipelineKey shaderStage
      { pOptions := none, pPipelineOptions := pipelineOptions, pNggState := nggState } =
    { pOptions := none, pPipelineOptions := pipelineOptions, pNggState := nggState } := by
  unfold ApplyProfileToShaderCreateInfo
  generalize profile.entries = es
  induction es with
  | nil => rfl
  | cons e es ih =>
    rw [List.foldl_cons]
    have hstep :
        (if ProfilePatternMatchesPipeline e.pattern pipelineKey then
          applyShaderCreateInfoEntry (e.action.shaders shaderStage).shaderCreate
            { pOptions := none, pPipelineOptions := pipelineOptions, pNggState := nggState }
        else
          { pOptions := none, pPipelineOptions := pipelineOptions, pNggState := nggState }) =
        { pOptions := none, pPipelineOptions := pipelineOptions, pNggState := nggState } := by
      split
      · exact applyEntry_none _ _ rfl
      · rfl
    rw [hstep]
    exact ih

/-- Helper: merging one rule's action never changes whether the
`pOptions` handle is null. -/
theorem applyEntry_pOptions_isSome (shaderCreate : ShaderCreateAction)
    (options : PipelineShaderOptionsPtr) :
    (applyShaderCreateInfoEntry shaderCreate options).pOptions.isSome =
      options.pOptions.isSome := by
  obtain ⟨popt, ppo, png⟩ := options
  cases popt with
  | none => rfl
  | some o => rfl

/-- Helper: applying a rule set never changes whether the `pOptions`
handle is null. -/
theorem applyProfile_pOptions_isSome (profile : PipelineProfile)
    (pipelineKey : PipelineOptimizerKey) (shaderStage : Fin 6)
    (options : PipelineShaderOptionsPtr) :
    (ApplyProfileToShaderCreateInfo profile pipelineKey shaderStage options).pOptions.isSome =
      options.pOptions.isSome := by
  unfold ApplyProfileToShaderCreateInfo
  generalize profile.entries = es
  induction es generalizing options with
  | nil => rfl
  | cons e es ih =>
    rw [List.foldl_cons, ih]
    split
    · exact applyEntry_pOptions_isSome _ _
    · rfl

/-- Helper: merging a rule with the `vgprLimit` apply bit set writes the
rule's `vgprLimit` payload into a non-null target. -/
theorem applyEntry_vgprLimit_applied (shaderCreate : ShaderCreateAction)
    (options : PipelineShaderOptionsPtr)
    (ha : shaderCreate.apply.vgprLimit = true)
    (ho : options.pOptions.isSome = true) :
    (applyShaderCreateInfoEntry shaderCreate options).pOptions.map ShaderOptions.vgprLimit =
      some shaderCreate.tuningOptions.vgprLimit := by
  obtain ⟨popt, ppo, png⟩ := options
  cases popt with
  | none => simp at ho
  | some o => simp [applyShaderCreateInfoEntry, ha]

/-- C7: `OverrideShaderCreateInfo` applies the application, tuning and
runtime rule sets in that fixed order; consequently, when the
runtime rule set holds a rule matching the pipeline with the `vgprLimit`
apply bit set, the final `vgprLimit` is that later rule's value, no
matter which matching rules the earlier application and tuning rule sets
contain for the same apply bit. -/
theorem override_shader_create_info_precedence (so : ShaderOptimizer)
    (pipelineKey : PipelineOptimizerKey) (shaderStage : Fin 6)
    (options : PipelineShaderOptionsPtr) (e : PipelineProfileEntry)
    (hruntime : so.runtimeProfile.entries = [e])
    (hmatch : ProfilePatternMatchesPipeline e.pattern pipelineKey = true)
    (happly : (e.action.shaders shaderStage).shaderCreate.apply.vgprLimit = true)
    (hsome : options.pOptions.isSome = true) :
    (OverrideShaderCreateInfo so pipelineKey shaderStage options =
      ApplyProfileToShaderCreateInfo so.runtimeProfile pipelineKey shaderStage
        (ApplyProfileToShaderCreateInfo so.tuningProfile pipelineKey shaderStage
          (ApplyProfileToShaderCreateInfo so.appProfile pipelineKey shaderStage options))) ∧
    (OverrideShaderCreateInfo so pipelineKey shaderStage options).pOptions.map
        ShaderOptions.vgprLimit =
      some (e.action.shaders shaderStage).shaderCreate.tuningOptions.vgprLimit := by
  refine ⟨rfl, ?_⟩
  unfold OverrideShaderCreateInfo
  have hinner :
      (ApplyProfileToShaderCreateInfo so.tuningProfile pipelineKey shaderStage
        (ApplyProfileToShaderCreateInfo so.appProfile pipelineKey shaderStage
          options)).pOptions.isSome = true := by
    rw [applyProfile_pOptions_isSome, applyProfile_pOptions_isSome]
    exact hsome
  generalize
    ApplyProfileToShaderCreateInfo so.tuningProfile pipelineKey shaderStage
      (ApplyProfileToShaderCreateInfo so.appProfile pipelineKey shaderStage options) =
    inner at hinner ⊢
  unfold ApplyProfileToShaderCreateInfo
  rw [hruntime]
  simp only [List.foldl_cons, List.foldl_nil, hmatch, if_true]
  exact applyEntry_vgprLimit_applied _ _ happly hinner

/-- Always-matching pattern used by concrete witnesses. -/
def cAlwaysPattern : PipelineProfilePattern :=
  { always := true, shaders := fun _ => ShaderProfilePattern.zero }

/-- An always-matching rule setting the `vgprLimit` apply bit with
payload `v` at every stage, used by the C7 witness. -/
def c7Entry (v : Nat) : PipelineProfileEntry :=
  { pattern := cAlwaysPattern
    action :=
      { shaders := fun _ =>
          { shaderCreate :=
              { apply := { ShaderCreateApply.zero with vgprLimit := true }
                tuningOptions := { TuningOptions.zero with vgprLimit := v } }
            dynamicShaderInfo := DynamicShaderInfoAction.zero }
        createInfo := PipelineCreateAction.zero } }

/-- Concrete optimizer for the C7 witness: all three rule sets hold a
matching rule for the same apply bit, with payloads 100, 200, 300. -/
def c7Optimizer : ShaderOptimizer :=
  { appProfile := { entries := [c7Entry 100] }
    tuningProfile := { entries := [c7Entry 200] }
    runtimeProfile := { entries := [c7Entry 300] } }

/-- Concrete caller-supplied compiler options with distinctive values. -/
def sampleShaderOptions : ShaderOptions :=
  { vgprLimit := 7, sgprLimit := 8, maxThreadGroupsPerComputeUnit := 9
    debugMode := false, trapPresent := false, allowReZ := false
    disableLoopUnroll := false, useSiScheduler := false
    enableLoadScalarizer := false, forceLoopUnrollCount := 7
    disableLicm := false, unrollThreshold := 9, fp32DenormalMode := 2
    waveSize := 64, wgpMode := false, waveBreakSize := 1 }

/-- Concrete non-null target for witnesses. -/
def sampleOptions : PipelineShaderOptionsPtr :=
  { pOptions := some sampleShaderOptions
    pPipelineOptions := { reconfigWorkgroupLayout := false }
    pNggState :=
      { enableNgg := true, enableVertexReuse := false, enableFrustumCulling := false
        enableBoxFilterCulling := false, enableSphereCulling := false
        enableBackfaceCulling := false, enableSmallPrimFilter := false } }

/-- C7 witness: with matching `vgprLimit` rules of payloads 100, 200 and
300 in the application, tuning and runtime rule sets, the final value is
the runtime rule set's 300. -/
theorem override_shader_create_info_precedence_witness :
    (OverrideShaderCreateInfo c7Optimizer keyZero 0 sampleOptions).pOptions.map
      ShaderOptions.vgprLimit = some 300 :=
  (override_shader_create_info_precedence c7Optimizer keyZero 0 sampleOptions
    (c7Entry 300) rfl rfl rfl rfl).2

/-- Helper: a projection of the target is preserved by a whole rule-set
application whenever every matching rule's per-stage action preserves
it. -/
theorem applyProfile_proj {β : Type} (g : PipelineShaderOptionsPtr → β)
    (profile : PipelineProfile) (pipelineKey : PipelineOptimizerKey)
    (shaderStage : Fin 6) (options : PipelineShaderOptionsPtr)
    (h : ∀ e ∈ profile.entries,
      ProfilePatternMatchesPipeline e.pattern pipelineKey = true →
      ∀ x, g (applyShaderCreateInfoEntry (e.action.shaders shaderStage).shaderCreate x) = g x) :
    g (ApplyProfileToShaderCreateInfo profile pipelineKey shaderStage options) = g options := by
  unfold ApplyProfileToShaderCreateInfo
  generalize profile.entries = es at h
  revert h
  induction es generalizing options with
  | nil => intro _; rfl
  | cons e es ih =>
    intro h
    rw [List.foldl_cons]
    rw [ih _ (fun e' he' hm' => h e' (List.mem_cons_of_mem _ he') hm')]
    split
    next hm => exact h e (List.mem_cons_self e es) hm options
    next => rfl

/-- Every matching entry of the profile satisfies `P` on its per-stage
shader-create action. -/
abbrev MatchingEntriesSat (profile : PipelineProfile)
    (pipelineKey : PipelineOptimizerKey) (shaderStage : Fin 6)
    (P : ShaderCreateAction → Prop) : Prop :=
  ∀ e ∈ profile.entries,
    ProfilePatternMatchesPipeline e.pattern pipelineKey = true →
    P (e.action.shaders shaderStage).shaderCreate

/-- Rule used by the C1 counterexample: an always-matching entry whose
apply bitset is entirely zero but whose value payloads
`useSiScheduler`, `forceLoopUnrollCount` and `unrollThreshold` are
nonzero. -/
def c1Entry : PipelineProfileEntry :=
  { pattern := cAlwaysPattern
    action :=
      { shaders := fun _ =>
          { shaderCreate :=
              { apply := ShaderCreateApply.zero
                tuningOptions := { TuningOptions.zero with
                  useSiScheduler := true, forceLoopUnrollCount := 5, unrollThreshold := 3 } }
            dynamicShaderInfo := DynamicShaderInfoAction.zero }
        createInfo := PipelineCreateAction.zero } }

/-- Single-rule profile holding `c1Entry`. -/
def c1Profile : PipelineProfile := { entries := [c1Entry] }

/-- C1 counterexample: `c1Entry` matches the key and its apply bitset is
entirely unset, yet `ApplyProfileToShaderCreateInfo` overwrites
`useSiScheduler` (false to true), `forceLoopUnrollCount` (7 to 5) and
`unrollThreshold` (9 to 3) of the caller's options, because these fields
are gated by a nonzero value payload, not by an apply bit. -/
theorem unset_apply_bit_payload_counterexample :
    (c1Entry.action.shaders 0).shaderCreate.apply = ShaderCreateApply.zero ∧
    ProfilePatternMatchesPipeline c1Entry.pattern keyZero = true ∧
    sampleOptions.pOptions.map ShaderOptions.useSiScheduler = some false ∧
    (ApplyProfileToShaderCreateInfo c1Profile keyZero 0 sampleOptions).pOptions.map
      ShaderOptions.useSiScheduler = some true ∧
    sampleOptions.pOptions.map ShaderOptions.forceLoopUnrollCount = some 7 ∧
    (ApplyProfileToShaderCreateInfo c1Profile keyZero 0 sampleOptions).pOptions.map
      ShaderOptions.forceLoopUnrollCount = some 5 ∧
    sampleOptions.pOptions.map ShaderOptions.unrollThreshold = some 9 ∧
    (ApplyProfileToShaderCreateInfo c1Profile keyZero 0 sampleOptions).pOptions.map
      ShaderOptions.unrollThreshold = some 3 :=
  ⟨rfl, rfl, rfl, rfl, rfl, rfl, rfl, rfl⟩

/-- C1 (amended): in `ApplyProfileToShaderCreateInfo`, each apply-bit
gated tunable field of the target is unchanged whenever every matching
entry leaves that field's apply bit unset, regardless of the value
payloads; and each of the six value-gated fields (`useSiScheduler`,
`reconfigWorkgroupLayout`, `enableLoadScalarizer`,
`forceLoopUnrollCount`, `disableLicm`, `unrollThreshold`) is unchanged
whenever every matching entry carries a zero/false payload for it. -/
theorem unset_gate_leaves_fields_unchanged (profile : PipelineProfile)
    (pipelineKey : PipelineOptimizerKey) (shaderStage : Fin 6)
    (options : PipelineShaderOptionsPtr) :
    (MatchingEntriesSat profile pipelineKey shaderStage (fun sc => sc.apply.vgprLimit = false) →
      (ApplyProfileToShaderCreateInfo profile pipelineKey shaderStage options).pOptions.map
        ShaderOptions.vgprLimit = options.pOptions.map ShaderOptions.vgprLimit) ∧
    (MatchingEntriesSat profile pipelineKey shaderStage (fun sc => sc.apply.sgprLimit = false) →
      (ApplyProfileToShaderCreateInfo profile pipelineKey shaderStage options).pOptions.map
        ShaderOptions.sgprLimit = options.pOptions.map ShaderOptions.sgprLimit) ∧
    (MatchingEntriesSat profile pipelineKey shaderStage
        (fun sc => sc.apply.maxThreadGroupsPerComputeUnit = false) →
      (ApplyProfileToShaderCreateInfo profile pipelineKey shaderStage options).pOptions.map
        ShaderOptions.maxThreadGroupsPerComputeUnit =
        options.pOptions.map ShaderOptions.maxThreadGroupsPerComputeUnit) ∧
    (MatchingEntriesSat profile pipelineKey shaderStage (fun sc => sc.apply.debugMode = false) →
      (ApplyProfileToShaderCreateInfo profile pipelineKey shaderStage options).pOptions.map
        ShaderOptions.debugMode = options.pOptions.map ShaderOptions.debugMode) ∧
    (MatchingEntriesSat profile pipelineKey shaderStage (fun sc => sc.apply.trapPresent = false) →
      (ApplyProfileToShaderCreateInfo profile pipelineKey shaderStage options).pOptions.map
        ShaderOptions.trapPresent = options.pOptions.map ShaderOptions.trapPresent) ∧
    (MatchingEntriesSat profile pipelineKey shaderStage (fun sc => sc.apply.allowReZ = false) →
      (ApplyProfileToShaderCreateInfo profile pipelineKey shaderStage options).pOptions.map
        ShaderOptions.allowReZ = options.pOptions.map ShaderOptions.allowReZ) ∧
    (MatchingEntriesSat profile pipelineKey shaderStage
        (fun sc => sc.apply.disableLoopUnrolls = false) →
      (ApplyProfileToShaderCreateInfo profile pipelineKey shaderStage options).pOptions.map
        ShaderOptions.disableLoopUnroll = options.pOptions.map ShaderOptions.disableLoopUnroll) ∧
    (MatchingEntriesSat profile pipelineKey shaderStage
        (fun sc => sc.apply.fp32DenormalMode = false) →
      (ApplyProfileToShaderCreateInfo profile pipelineKey shaderStage options).pOptions.map
        ShaderOptions.fp32DenormalMode = options.pOptions.map ShaderOptions.fp32DenormalMode) ∧
    (MatchingEntriesSat profile pipelineKey shaderStage (fun sc => sc.apply.waveSize = false) →
      (ApplyProfileToShaderCreateInfo profile pipelineKey shaderStage options).pOptions.map
        ShaderOptions.waveSize = options.pOptions.map ShaderOptions.waveSize) ∧
    (MatchingEntriesSat profile pipelineKey shaderStage (fun sc => sc.apply.wgpMode = false) →
      (ApplyProfileToShaderCreateInfo profile pipelineKey shaderStage options).pOptions.map
        ShaderOptions.wgpMode = options.pOptions.map ShaderOptions.wgpMode) ∧
    (MatchingEntriesSat profile pipelineKey shaderStage (fun sc => sc.apply.waveBreakSize = false) →
      (ApplyProfileToShaderCreateInfo profile pipelineKey shaderStage options).pOptions.map
        ShaderOptions.waveBreakSize = options.pOptions.map ShaderOptions.waveBreakSize) ∧
    (MatchingEntriesSat profile pipelineKey shaderStage (fun sc => sc.apply.nggDisable = false) →
      (ApplyProfileToShaderCreateInfo profile pipelineKey shaderStage options).pNggState.enableNgg =
        options.pNggState.enableNgg) ∧
    (MatchingEntriesSat profile pipelineKey shaderStage
        (fun sc => sc.apply.nggVertexReuse = false) →
      (ApplyProfileToShaderCreateInfo profile pipelineKey shaderStage
        options).pNggState.enableVertexReuse = options.pNggState.enableVertexReuse) ∧
    (MatchingEntriesSat profile pipelineKey shaderStage
        (fun sc => sc.apply.nggEnableFrustumCulling = false) →
      (ApplyProfileToShaderCreateInfo profile pipelineKey shaderStage
        options).pNggState.enableFrustumCulling = options.pNggState.enableFrustumCulling) ∧
    (MatchingEntriesSat profile pipelineKey shaderStage
        (fun sc => sc.apply.nggEnableBoxFilterCulling = false) →
      (ApplyProfileToShaderCreateInfo profile pipelineKey shaderStage
        options).pNggState.enableBoxFilterCulling = options.pNggState.enableBoxFilterCulling) ∧
    (MatchingEntriesSat profile pipelineKey shaderStage
        (fun sc => sc.apply.nggEnableSphereCulling = false) →
      (ApplyProfileToShaderCreateInfo profile pipelineKey shaderStage
        options).pNggState.enableSphereCulling = options.pNggState.enableSphereCulling) ∧
    (MatchingEntriesSat profile pipelineKey shaderStage
        (fun sc => sc.apply.nggEnableBackfaceCulling = false) →
      (ApplyProfileToShaderCreateInfo profile pipelineKey shaderStage
        options).pNggState.enableBackfaceCulling = options.pNggState.enableBackfaceCulling) ∧
    (MatchingEntriesSat profile pipelineKey shaderStage
        (fun sc => sc.apply.nggEnableSmallPrimFilter = false) →
      (ApplyProfileToShaderCreateInfo profile pipelineKey shaderStage
        options).pNggState.enableSmallPrimFilter = options.pNggState.enableSmallPrimFilter) ∧
    (MatchingEntriesSat profile pipelineKey shaderStage
        (fun sc => sc.tuningOptions.useSiScheduler = false) →
      (ApplyProfileToShaderCreateInfo profile pipelineKey shaderStage options).pOptions.map
        ShaderOptions.useSiScheduler = options.pOptions.map ShaderOptions.useSiScheduler) ∧
    (MatchingEntriesSat profile pipelineKey shaderStage
        (fun sc => sc.tuningOptions.reconfigWorkgroupLayout = false) →
      (ApplyProfileToShaderCreateInfo profile pipelineKey shaderStage
        options).pPipelineOptions.reconfigWorkgroupLayout =
        options.pPipelineOptions.reconfigWorkgroupLayout) ∧
    (MatchingEntriesSat profile pipelineKey shaderStage
        (fun sc => sc.tuningOptions.enableLoadScalarizer = false) →
      (ApplyProfileToShaderCreateInfo profile pipelineKey shaderStage options).pOptions.map
        ShaderOptions.enableLoadScalarizer =
        options.pOptions.map ShaderOptions.enableLoadScalarizer) ∧
    (MatchingEntriesSat profile pipelineKey shaderStage
        (fun sc => sc.tuningOptions.forceLoopUnrollCount = 0) →
      (ApplyProfileToShaderCreateInfo profile pipelineKey shaderStage options).pOptions.map
        ShaderOptions.forceLoopUnrollCount =
        options.pOptions.map ShaderOptions.forceLoopUnrollCount) ∧
    (MatchingEntriesSat profile pipelineKey shaderStage
        (fun sc => sc.tuningOptions.disableLicm = false) →
      (ApplyProfileToShaderCreateInfo profile pipelineKey shaderStage options).pOptions.map
        ShaderOptions.disableLicm = options.pOptions.map ShaderOptions.disableLicm) ∧
    (MatchingEntriesSat profile pipelineKey shaderStage
        (fun sc => sc.tuningOptions.unrollThreshold = 0) →
      (ApplyProfileToShaderCreateInfo profile pipelineKey shaderStage options).pOptions.map
        ShaderOptions.unrollThreshold = options.pOptions.map ShaderOptions.unrollThreshold) := by
  refine ⟨?_, ?_, ?_, ?_, ?_, ?_, ?_, ?_, ?_, ?_, ?_, ?_, ?_, ?_, ?_, ?_, ?_, ?_, ?_, ?_, ?_,
    ?_, ?_, ?_⟩
  · intro h
    refine applyProfile_proj (fun x => x.pOptions.map ShaderOptions.vgprLimit)
      profile pipelineKey shaderStage options ?_
    intro e he hm x
    obtain ⟨popt, ppo, png⟩ := x
    cases popt with
    | none => rfl
    | some o => simp [applyShaderCreateInfoEntry, h e he hm]
  · intro h
    refine applyProfile_proj (fun x => x.pOptions.map ShaderOptions.sgprLimit)
      profile pipelineKey shaderStage options ?_
    intro e he hm x
    obtain ⟨popt, ppo, png⟩ := x
    cases popt with
    | none => rfl
    | some o => simp [applyShaderCreateInfoEntry, h e he hm]
  · intro h
    refine applyProfile_proj (fun x => x.pOptions.map ShaderOptions.maxThreadGroupsPerComputeUnit)
      profile pipelineKey shaderStage options ?_
    intro e he hm x
    obtain ⟨popt, ppo, png⟩ := x
    cases popt with
    | none => rfl
    | some o => simp [applyShaderCreateInfoEntry, h e he hm]
  · intro h
    refine applyProfile_proj (fun x => x.pOptions.map ShaderOptions.debugMode)
      profile pipelineKey shaderStage options ?_
    intro e he hm x
    obtain ⟨popt, ppo, png⟩ := x
    cases popt with
    | none => rfl
    | some o => simp [applyShaderCreateInfoEntry, h e he hm]
  · intro h
    refine applyProfile_proj (fun x => x.pOptions.map ShaderOptions.trapPresent)
      profile pipelineKey shaderStage options ?_
    intro e he hm x
    obtain ⟨popt, ppo, png⟩ := x
    cases popt with
    | none => rfl
    | some o => simp [applyShaderCreateInfoEntry, h e he hm]
  · intro h
    refine applyProfile_proj (fun x => x.pOptions.map ShaderOptions.allowReZ)
      profile pipelineKey shaderStage options ?_
    intro e he hm x
    obtain ⟨popt, ppo, png⟩ := x
    cases popt with
    | none => rfl
    | some o => simp [applyShaderCreateInfoEntry, h e he hm]
  · intro h
    refine applyProfile_proj (fun x => x.pOptions.map ShaderOptions.disableLoopUnroll)
      profile pipelineKey shaderStage options ?_
    intro e he hm x
    obtain ⟨popt, ppo, png⟩ := x
    cases popt with
    | none => rfl
    | some o => simp [applyShaderCreateInfoEntry, h e he hm]
  · intro h
    refine applyProfile_proj (fun x => x.pOptions.map ShaderOptions.fp32DenormalMode)
      profile pipelineKey shaderStage options ?_
    intro e he hm x
    obtain ⟨popt, ppo, png⟩ := x
    cases popt with
    | none => rfl
    | some o => simp [applyShaderCreateInfoEntry, h e he hm]
  · intro h
    refine applyProfile_proj (fun x => x.pOptions.map ShaderOptions.waveSize)
      profile pipelineKey shaderStage options ?_
    intro e he hm x
    obtain ⟨popt, ppo, png⟩ := x
    cases popt with
    | none => rfl
    | some o => simp [applyShaderCreateInfoEntry, h e he hm]
  · intro h
    refine applyProfile_proj (fun x => x.pOptions.map ShaderOptions.wgpMode)
      profile pipelineKey shaderStage options ?_
    intro e he hm x
    obtain ⟨popt, ppo, png⟩ := x
    cases popt with
    | none => rfl
    | some o => simp [applyShaderCreateInfoEntry, h e he hm]
  · intro h
    refine applyProfile_proj (fun x => x.pOptions.map ShaderOptions.waveBreakSize)
      profile pipelineKey shaderStage options ?_
    intro e he hm x
    obtain ⟨popt, ppo, png⟩ := x
    cases popt with
    | none => rfl
    | some o => simp [applyShaderCreateInfoEntry, h e he hm]
  · intro h
    refine applyProfile_proj (fun x => x.pNggState.enableNgg)
      profile pipelineKey shaderStage options ?_
    intro e he hm x
    obtain ⟨popt, ppo, png⟩ := x
    cases popt with
    | none => rfl
    | some o => simp [applyShaderCreateInfoEntry, h e he hm]
  · intro h
    refine applyProfile_proj (fun x => x.pNggState.enableVertexReuse)
      profile pipelineKey shaderStage options ?_
    intro e he hm x
    obtain ⟨popt, ppo, png⟩ := x
    cases popt with
    | none => rfl
    | some o => simp [applyShaderCreateInfoEntry, h e he hm]
  · intro h
    refine applyProfile_proj (fun x => x.pNggState.enableFrustumCulling)
      profile pipelineKey shaderStage options ?_
    intro e he hm x
    obtain ⟨popt, ppo, png⟩ := x
    cases popt with
    | none => rfl
    | some o => simp [applyShaderCreateInfoEntry, h e he hm]
  · intro h
    refine applyProfile_proj (fun x => x.pNggState.enableBoxFilterCulling)
      profile pipelineKey shaderStage options ?_
    intro e he hm x
    obtain ⟨popt, ppo, png⟩ := x
    cases popt with
    | none => rfl
    | some o => simp [applyShaderCreateInfoEntry, h e he hm]
  · intro h
    refine applyProfile_proj (fun x => x.pNggState.enableSphereCulling)
      profile pipelineKey shaderStage options ?_
    intro e he hm x
    obtain ⟨popt, ppo, png⟩ := x
    cases popt with
    | none => rfl
    | some o => simp [applyShaderCreateInfoEntry, h e he hm]
  · intro h
    refine applyProfile_proj (fun x => x.pNggState.enableBackfaceCulling)
      profile pipelineKey shaderStage options ?_
    intro e he hm x
    obtain ⟨popt, ppo, png⟩ := x
    cases popt with
    | none => rfl
    | some o => simp [applyShaderCreateInfoEntry, h e he hm]
  · intro h
    refine applyProfile_proj (fun x => x.pNggState.enableSmallPrimFilter)
      profile pipelineKey shaderStage options ?_
    intro e he hm x
    obtain ⟨popt, ppo, png⟩ := x
    cases popt with
    | none => rfl
    | some o => simp [applyShaderCreateInfoEntry, h e he hm]
  · intro h
    refine applyProfile_proj (fun x => x.pOptions.map ShaderOptions.useSiScheduler)
      profile pipelineKey shaderStage options ?_
    intro e he hm x
    obtain ⟨popt, ppo, png⟩ := x
    cases popt with
    | none => rfl
    | some o => simp [applyShaderCreateInfoEntry, h e he hm]
  · intro h
    refine applyProfile_proj (fun x => x.pPipelineOptions.reconfigWorkgroupLayout)
      profile pipelineKey shaderStage options ?_
    intro e he hm x
    obtain ⟨popt, ppo, png⟩ := x
    cases popt with
    | none => rfl
    | some o => simp [applyShaderCreateInfoEntry, h e he hm]
  · intro h
    refine applyProfile_proj (fun x => x.pOptions.map ShaderOptions.enableLoadScalarizer)
      profile pipelineKey shaderStage options ?_
    intro e he hm x
    obtain ⟨popt, ppo, png⟩ := x
    cases popt with
    | none => rfl
    | some o => simp [applyShaderCreateInfoEntry, h e he hm]
  · intro h
    refine applyProfile_proj (fun x => x.pOptions.map ShaderOptions.forceLoopUnrollCount)
      profile pipelineKey shaderStage options ?_
    intro e he hm x
    obtain ⟨popt, ppo, png⟩ := x
    cases popt with
    | none => rfl
    | some o => simp [applyShaderCreateInfoEntry, h e he hm]
  · intro h
    refine applyProfile_proj (fun x => x.pOptions.map ShaderOptions.disableLicm)
      profile pipelineKey shaderStage options ?_
    intro e he hm x
    obtain ⟨popt, ppo, png⟩ := x
    cases popt with
    | none => rfl
    | some o => simp [applyShaderCreateInfoEntry, h e he hm]
  · intro h
    refine applyProfile_proj (fun x => x.pOptions.map ShaderOptions.unrollThreshold)
      profile pipelineKey shaderStage options ?_
    intro e he hm x
    obtain ⟨popt, ppo, png⟩ := x
    cases popt with
    | none => rfl
    | some o => simp [applyShaderCreateInfoEntry, h e he hm]

/-- Always-matching single rule whose action block is entirely zero:
every apply bit unset and every value payload zero, used by the C1
witness. -/
def c1ZeroProfile : PipelineProfile :=
  { entries := [{ pattern := cAlwaysPattern, action := PipelineProfileAction.zero }] }

/-- C1 witness: against the all-zero matching rule, every gated field of
the concrete caller options is unchanged. -/
theorem unset_gate_leaves_fields_unchanged_witness :
    ((ApplyProfileToShaderCreateInfo c1ZeroProfile keyZero 0 sampleOptions).pOptions.map
      ShaderOptions.vgprLimit = sampleOptions.pOptions.map ShaderOptions.vgprLimit) ∧
    ((ApplyProfileToShaderCreateInfo c1ZeroProfile keyZero 0 sampleOptions).pOptions.map
      ShaderOptions.sgprLimit = sampleOptions.pOptions.map ShaderOptions.sgprLimit) ∧
    ((ApplyProfileToShaderCreateInfo c1ZeroProfile keyZero 0 sampleOptions).pOptions.map
      ShaderOptions.maxThreadGroupsPerComputeUnit =
      sampleOptions.pOptions.map ShaderOptions.maxThreadGroupsPerComputeUnit) ∧
    ((ApplyProfileToShaderCreateInfo c1ZeroProfile keyZero 0 sampleOptions).pOptions.map
      ShaderOptions.debugMode = sampleOptions.pOptions.map ShaderOptions.debugMode) ∧
    ((ApplyProfileToShaderCreateInfo c1ZeroProfile keyZero 0 sampleOptions).pOptions.map
      ShaderOptions.trapPresent = sampleOptions.pOptions.map ShaderOptions.trapPresent) ∧
    ((ApplyProfileToShaderCreateInfo c1ZeroProfile keyZero 0 sampleOptions).pOptions.map
      ShaderOptions.allowReZ = sampleOptions.pOptions.map ShaderOptions.allowReZ) ∧
    ((ApplyProfileToShaderCreateInfo c1ZeroProfile keyZero 0 sampleOptions).pOptions.map
      ShaderOptions.disableLoopUnroll =
      sampleOptions.pOptions.map ShaderOptions.disableLoopUnroll) ∧
    ((ApplyProfileToShaderCreateInfo c1ZeroProfile keyZero 0 sampleOptions).pOptions.map
      ShaderOptions.fp32DenormalMode =
      sampleOptions.pOptions.map ShaderOptions.fp32DenormalMode) ∧
    ((ApplyProfileToShaderCreateInfo c1ZeroProfile keyZero 0 sampleOptions).pOptions.map
      ShaderOptions.waveSize = sampleOptions.pOptions.map ShaderOptions.waveSize) ∧
    ((ApplyProfileToShaderCreateInfo c1ZeroProfile keyZero 0 sampleOptions).pOptions.map
      ShaderOptions.wgpMode = sampleOptions.pOptions.map ShaderOptions.wgpMode) ∧
    ((ApplyProfileToShaderCreateInfo c1ZeroProfile keyZero 0 sampleOptions).pOptions.map
      ShaderOptions.waveBreakSize = sampleOptions.pOptions.map ShaderOptions.waveBreakSize) ∧
    ((ApplyProfileToShaderCreateInfo c1ZeroProfile keyZero 0
      sampleOptions).pNggState.enableNgg = sampleOptions.pNggState.enableNgg) ∧
    ((ApplyProfileToShaderCreateInfo c1ZeroProfile keyZero 0
      sampleOptions).pNggState.enableVertexReuse = sampleOptions.pNggState.enableVertexReuse) ∧
    ((ApplyProfileToShaderCreateInfo c1ZeroProfile keyZero 0
      sampleOptions).pNggState.enableFrustumCulling =
      sampleOptions.pNggState.enableFrustumCulling) ∧
    ((ApplyProfileToShaderCreateInfo c1ZeroProfile keyZero 0
      sampleOptions).pNggState.enableBoxFilterCulling =
      sampleOptions.pNggState.enableBoxFilterCulling) ∧
    ((ApplyProfileToShaderCreateInfo c1ZeroProfile keyZero 0
      sampleOptions).pNggState.enableSphereCulling =
      sampleOptions.pNggState.enableSphereCulling) ∧
    ((ApplyProfileToShaderCreateInfo c1ZeroProfile keyZero 0
      sampleOptions).pNggState.enableBackfaceCulling =
      sampleOptions.pNggState.enableBackfaceCulling) ∧
    ((ApplyProfileToShaderCreateInfo c1ZeroProfile keyZero 0
      sampleOptions).pNggState.enableSmallPrimFilter =
      sampleOptions.pNggState.enableSmallPrimFilter) ∧
    ((ApplyProfileToShaderCreateInfo c1ZeroProfile keyZero 0 sampleOptions).pOptions.map
      ShaderOptions.useSiScheduler = sampleOptions.pOptions.map ShaderOptions.useSiScheduler) ∧
    ((ApplyProfileToShaderCreateInfo c1ZeroProfile keyZero 0
      sampleOptions).pPipelineOptions.reconfigWorkgroupLayout =
      sampleOptions.pPipelineOptions.reconfigWorkgroupLayout) ∧
    ((ApplyProfileToShaderCreateInfo c1ZeroProfile keyZero 0 sampleOptions).pOptions.map
      ShaderOptions.enableLoadScalarizer =
      sampleOptions.pOptions.map ShaderOptions.enableLoadScalarizer) ∧
    ((ApplyProfileToShaderCreateInfo c1ZeroProfile keyZero 0 sampleOptions).pOptions.map
      ShaderOptions.forceLoopUnrollCount =
      sampleOptions.pOptions.map ShaderOptions.forceLoopUnrollCount) ∧
    ((ApplyProfileToShaderCreateInfo c1ZeroProfile keyZero 0 sampleOptions).pOptions.map
      ShaderOptions.disableLicm = sampleOptions.pOptions.map ShaderOptions.disableLicm) ∧
    ((ApplyProfileToShaderCreateInfo c1ZeroProfile keyZero 0 sampleOptions).pOptions.map
      ShaderOptions.unrollThreshold =
      sampleOptions.pOptions.map ShaderOptions.unrollThreshold) := by
  obtain ⟨h1, h2, h3, h4, h5, h6, h7, h8, h9, h10, h11, h12, h13, h14, h15, h16, h17, h18,
    h19, h20, h21, h22, h23, h24⟩ :=
    unset_gate_leaves_fields_unchanged c1ZeroProfile keyZero 0 sampleOptions
  exact ⟨h1 (by decide), h2 (by decide), h3 (by decide), h4 (by decide), h5 (by decide),
    h6 (by decide), h7 (by decide), h8 (by decide), h9 (by decide), h10 (by decide),
    h11 (by decide), h12 (by decide), h13 (by decide), h14 (by decide), h15 (by decide),
    h16 (by decide), h17 (by decide), h18 (by decide), h19 (by decide), h20 (by decide),
    h21 (by decide), h22 (by decide), h23 (by decide), h24 (by decide)⟩

/-- Settings enum `ShaderWaveSize` values handled by the source. -/
inductive ShaderWaveSize where
  | WaveSizeAuto
  | WaveSize64
  | WaveSize32
deriving DecidableEq, Repr

/-- Settings enum `WgpMode` values handled by the source. -/
inductive WgpMode where
  | WgpModeAuto
  | WgpModeCu
  | WgpModeWgp
deriving DecidableEq, Repr

/-- Settings enum `PipelineBinningMode` values handled by the source. -/
inductive PipelineBinningMode where
  | PipelineBinningModeDefault
  | PipelineBinningModeEnable
  | PipelineBinningModeDisable
deriving DecidableEq, Repr

/-- The runtime settings consumed by `BuildTuningProfile`
(lines 478-631). `overrideShaderStage` is kept in range by the
`VK_ASSERT(shaderStage < ShaderStage::ShaderStageCount)` contract at
line 515, so it is modelled as `Fin 6`. -/
structure RuntimeSettings where
  overrideShaderParams : Bool
  overrideShaderHashLower : Nat
  overrideShaderHashUpper : Nat
  overrideShaderStage : Fin 6
  overrideNumVGPRsAvailable : Nat
  overrideMaxLdsSpillDwords : Nat
  overrideUserDataSpillThreshold : Bool
  overrideAllowReZ : Bool
  overrideEnableSelectiveInline : Bool
  overrideDisableLoopUnrolls : Bool
  overrideUseSiScheduler : Bool
  overrideReconfigWorkgroupLayout : Bool
  overrideDisableLicm : Bool
  overrideEnableLoadScalarizer : Bool
  overrideWaveSize : ShaderWaveSize
  overrideWgpMode : WgpMode
  overrideUseNgg : Bool
  overrideEnableSubvector : Bool
  overrideWavesPerCu : Nat
  overrideCsTgPerCu : Nat
  overrideUsePbbPerCrc : PipelineBinningMode

/-- The `enableSelectiveInline` and `enableSubvector` apply bits exist in
the action struct but have no consumer in this translation unit; they are
still recorded faithfully by the builder below through
`ShaderCreateApply`. `BuildTuningProfile` (lines 478-631) modelled as a
function of the settings and of whether the backing-store allocation
succeeded: when the override switch is off or allocation failed the rule
set keeps zero entries; otherwise a single rule is synthesized from the
settings over a memset-zeroed entry, each conditional write mirroring one
source `if`/`switch`. -/
def BuildTuningProfile (s : RuntimeSettings) (allocOk : Bool) : PipelineProfile :=
  if (s.overrideShaderParams == false) || !allocOk then
    { entries := [] }
  else
    -- matchHash = (overrideShaderHashLower != 0) || (overrideShaderHashUpper != 0)
    let matchHash : Bool := (s.overrideShaderHashLower != 0) || (s.overrideShaderHashUpper != 0)
    -- pattern.match.codeHash = matchHash; pattern.codeHash = configured hash;
    -- entry.pattern.match.always = 1 exactly in the no-hash branch (lines 502-511)
    let stagePattern : ShaderProfilePattern :=
      { matchBits := { ShaderMatch.zero with codeHash := matchHash }
        codeHash := { lower := s.overrideShaderHashLower, upper := s.overrideShaderHashUpper }
        codeSizeLessThanValue := 0 }
    let pattern : PipelineProfilePattern :=
      { always := !matchHash
        shaders := Function.update (fun _ => ShaderProfilePattern.zero)
          s.overrideShaderStage stagePattern }
    -- apply bits, lines 524-596
    let applyBits : ShaderCreateApply :=
      { ShaderCreateApply.zero with
          vgprLimit := s.overrideNumVGPRsAvailable != 0
          ldsSpillLimitDwords := s.overrideMaxLdsSpillDwords != 0
          userDataSpillThreshold := s.overrideUserDataSpillThreshold
          allowReZ := s.overrideAllowReZ
          enableSelectiveInline := s.overrideEnableSelectiveInline
          disableLoopUnrolls := s.overrideDisableLoopUnrolls
          waveSize := (s.overrideWaveSize == ShaderWaveSize.WaveSize64) ||
            (s.overrideWaveSize == ShaderWaveSize.WaveSize32)
          wgpMode := s.overrideWgpMode == WgpMode.WgpModeWgp
          nggDisable := s.overrideUseNgg
          enableSubvector := s.overrideEnableSubvector }
    -- value payloads written alongside the bits above (zero otherwise)
    let tuningVals : TuningOptions :=
      { TuningOptions.zero with
          vgprLimit := s.overrideNumVGPRsAvailable
          ldsSpillLimitDwords := s.overrideMaxLdsSpillDwords
          useSiScheduler := s.overrideUseSiScheduler
          reconfigWorkgroupLayout := s.overrideReconfigWorkgroupLayout
          disableLicm := s.overrideDisableLicm
          enableLoadScalarizer := s.overrideEnableLoadScalarizer
          waveSize :=
            match s.overrideWaveSize with
            | ShaderWaveSize.WaveSizeAuto => 0
            | ShaderWaveSize.WaveSize64 => 64
            | ShaderWaveSize.WaveSize32 => 32 }
    -- dynamic shader info, lines 598-609
    let dynInfo : DynamicShaderInfoAction :=
      { apply := { DynamicShaderInfoApply.zero with
          maxWavesPerCu := s.overrideWavesPerCu != 0
          maxThreadGroupsPerCu := (s.overrideCsTgPerCu != 0) &&
            (s.overrideShaderStage == ShaderStageCompute) }
        cuEnableMask := 0
        maxWavesPerCu := s.overrideWavesPerCu
        maxThreadGroupsPerCu :=
          if (s.overrideCsTgPerCu != 0) && (s.overrideShaderStage == ShaderStageCompute) then
            s.overrideCsTgPerCu
          else 0 }
    -- pipeline-level binning override, lines 611-630
    let createInfo : PipelineCreateAction :=
      { apply := { lateAllocVsLimit := false
                   binningOverride :=
                     s.overrideUsePbbPerCrc != PipelineBinningMode.PipelineBinningModeDefault }
        lateAllocVsLimit := 0
        binningOverride :=
          match s.overrideUsePbbPerCrc with
          | PipelineBinningMode.PipelineBinningModeEnable => BinningOverride.Enable
          | PipelineBinningMode.PipelineBinningModeDisable => BinningOverride.Disable
          | PipelineBinningMode.PipelineBinningModeDefault => BinningOverride.Default }
    let stageAction : ShaderProfileAction :=
      { shaderCreate := { apply := applyBits, tuningOptions := tuningVals }
        dynamicShaderInfo := dynInfo }
    { entries :=
        [{ pattern := pattern
           action :=
             { shaders := Function.update (fun _ => ShaderProfileAction.zero)
                 s.overrideShaderStage stageAction
               createInfo := createInfo } }] }

/-- C8: with the `overrideShaderParams` switch off, the tuning profile is
built with zero entries, whatever the other settings and whether or not
the backing allocation succeeded. -/
theorem tuning_profile_empty_when_switch_off (s : RuntimeSettings) (allocOk : Bool)
    (h : s.overrideShaderParams = false) :
    (BuildTuningProfile s allocOk).entries = [] := by
  unfold BuildTuningProfile
  rw [if_pos]
  simp [h]

/-- Settings with the override switch off but every other scalar
configured to a non-default value, for the C8 witness. -/
def c8Settings : RuntimeSettings :=
  { overrideShaderParams := false
    overrideShaderHashLower := 111, overrideShaderHashUpper := 222
    overrideShaderStage := 4
    overrideNumVGPRsAvailable := 32, overrideMaxLdsSpillDwords := 16
    overrideUserDataSpillThreshold := true, overrideAllowReZ := true
    overrideEnableSelectiveInline := true, overrideDisableLoopUnrolls := true
    overrideUseSiScheduler := true, overrideReconfigWorkgroupLayout := true
    overrideDisableLicm := true, overrideEnableLoadScalarizer := true
    overrideWaveSize := ShaderWaveSize.WaveSize32
    overrideWgpMode := WgpMode.WgpModeWgp
    overrideUseNgg := true, overrideEnableSubvector := true
    overrideWavesPerCu := 8, overrideCsTgPerCu := 4
    overrideUsePbbPerCrc := PipelineBinningMode.PipelineBinningModeEnable }

/-- C8 witness: the heavily configured `c8Settings` with the switch off
still yield an empty tuning profile, even with a successful allocation. -/
theorem tuning_profile_empty_when_switch_off_witness :
    (BuildTuningProfile c8Settings true).entries = [] :=
  tuning_profile_empty_when_switch_off c8Settings true rfl

/-- C9: the single synthesized tuning rule matches by hash exactly when a
nonzero hash pair is configured: then the hash-equality test is enabled
at the configured stage with the configured hash as operand and the
`always` flag stays unset; with both configured halves zero, the
`always` flag is set instead. -/
theorem tuning_profile_pattern_construction (s : RuntimeSettings) (allocOk : Bool)
    (hon : s.overrideShaderParams = true) (halloc : allocOk = true) :
    ∃ e, (BuildTuningProfile s allocOk).entries = [e] ∧
      (((s.overrideShaderHashLower ≠ 0 ∨ s.overrideShaderHashUpper ≠ 0) →
        (e.pattern.shaders s.overrideShaderStage).matchBits.codeHash = true ∧
        (e.pattern.shaders s.overrideShaderStage).codeHash.lower = s.overrideShaderHashLower ∧
        (e.pattern.shaders s.overrideShaderStage).codeHash.upper = s.overrideShaderHashUpper ∧
        e.pattern.always = false) ∧
      ((s.overrideShaderHashLower = 0 ∧ s.overrideShaderHashUpper = 0) →
        e.pattern.always = true)) := by
  unfold BuildTuningProfile
  rw [if_neg (by simp [hon, halloc])]
  refine ⟨_, rfl, ?_, ?_⟩
  · intro hnz
    have hmh : ((s.overrideShaderHashLower != 0) || (s.overrideShaderHashUpper != 0)) = true := by
      rcases hnz with h | h <;> simp [h]
    constructor
    · simp [Function.update_same, hmh]
    · simp [Function.update_same, hmh]
  · intro hz
    have hmh : ((s.overrideShaderHashLower != 0) || (s.overrideShaderHashUpper != 0)) = false := by
      simp [hz.1, hz.2]
    simp [hmh]

/-- Settings for the C9 witness: switch on and a nonzero configured hash
pair at the compute stage. -/
def c9Settings : RuntimeSettings :=
  { c8Settings with
      overrideShaderParams := true
      overrideShaderHashLower := 111, overrideShaderHashUpper := 222
      overrideShaderStage := ShaderStageCompute }

/-- Settings for the C9 witness's unconditional branch: switch on and
both configured hash halves zero. -/
def c9ZeroHashSettings : RuntimeSettings :=
  { c9Settings with overrideShaderHashLower := 0, overrideShaderHashUpper := 0 }

/-- C9 witness: instantiated at `c9Settings` (nonzero hash pair) and at
`c9ZeroHashSettings` (zero hash pair), with the respective hypotheses
discharged concretely. -/
theorem tuning_profile_pattern_construction_witness :
    (∃ e, (BuildTuningProfile c9Settings true).entries = [e] ∧
      (e.pattern.shaders c9Settings.overrideShaderStage).matchBits.codeHash = true ∧
      (e.pattern.shaders c9Settings.overrideShaderStage).codeHash.lower = 111 ∧
      (e.pattern.shaders c9Settings.overrideShaderStage).codeHash.upper = 222 ∧
      e.pattern.always = false) ∧
    (∃ e, (BuildTuningProfile c9ZeroHashSettings true).entries = [e] ∧
      e.pattern.always = true) := by
  constructor
  · obtain ⟨e, he, hcase, _⟩ :=
      tuning_profile_pattern_construction c9Settings true rfl rfl
    obtain ⟨hbit, hlo, hhi, halw⟩ := hcase (Or.inl (by decide))
    exact ⟨e, he, hbit, hlo, hhi, halw⟩
  · obtain ⟨e, he, _, hcase⟩ :=
      tuning_profile_pattern_construction c9ZeroHashSettings true rfl rfl
    exact ⟨e, he, hcase ⟨rfl, rfl⟩⟩

end ShaderOpt
